import Mathlib

/-!
Verification of the EduHealth payment subsystem (Paystack integration).

The definitions below are a shallow embedding of the payment lifecycle code
in `app.py` and `paystack_integration.py`:

* raw webhook bodies are strings of ASCII bytes; `parseJson` models the
  boundary's `request.get_json()` / `json.loads`, and `jsonDumpsCompact`
  models `json.dumps(webhook_data, separators=(',', ':'))`;
* `hmacSha512Hex` is a full implementation of HMAC-SHA-512 over byte lists
  (bytes are `Nat` values below 256, words are `Nat` values reduced mod 2^64),
  validated against the FIPS 180-4 and RFC 4231 test vectors;
* the database is a `DBState` (users and payment transactions); SQLAlchemy
  queries and commits become pure lookups and list updates, with the UNIQUE
  constraint on `paystack_reference` checked at commit time;
* clock readings (`datetime.utcnow()`) are integer seconds passed in as
  parameters; `timedelta(days=n)` is `n * 86400` seconds;
* HTTP calls to the gateway are an `HttpOutcome` parameter; Flask route
  results are `(status code, JSON body)` pairs.

Money amounts are modelled as exact rationals (`ℚ`); the only amounts the
program manipulates are decimal literals and divisions by 100, which are
exact.  JSON numbers are modelled as integers (the gateway sends minor
units as integers).
-/

set_option maxRecDepth 100000
set_option maxHeartbeats 4000000

/-! ## SHA-512 and HMAC-SHA-512 over byte lists

Bytes are `Nat` values below 256; 64-bit words are `Nat` values reduced
modulo 2^64 after every arithmetic step, per the shallow-embedding
convention for machine integers. -/

/-- 64-bit addition: sum reduced mod 2^64. -/
def add64 (a b : Nat) : Nat := (a + b) % 18446744073709551616

/-- 64-bit right rotation. -/
def rotr64 (x n : Nat) : Nat :=
  ((x >>> n) ||| (x <<< (64 - n))) % 18446744073709551616

/-- 64-bit bitwise complement. -/
def not64 (x : Nat) : Nat := 18446744073709551615 - x

/-- SHA-512 choice function. -/
def ch64 (x y z : Nat) : Nat := (x &&& y) ^^^ ((not64 x) &&& z)

/-- SHA-512 majority function. -/
def maj64 (x y z : Nat) : Nat := (x &&& y) ^^^ (x &&& z) ^^^ (y &&& z)

/-- SHA-512 big sigma 0. -/
def bsig0 (x : Nat) : Nat := (rotr64 x 28) ^^^ (rotr64 x 34) ^^^ (rotr64 x 39)

/-- SHA-512 big sigma 1. -/
def bsig1 (x : Nat) : Nat := (rotr64 x 14) ^^^ (rotr64 x 18) ^^^ (rotr64 x 41)

/-- SHA-512 small sigma 0. -/
def ssig0 (x : Nat) : Nat := (rotr64 x 1) ^^^ (rotr64 x 8) ^^^ (x >>> 7)

/-- SHA-512 small sigma 1. -/
def ssig1 (x : Nat) : Nat := (rotr64 x 19) ^^^ (rotr64 x 61) ^^^ (x >>> 6)

/-- Binary search for the largest `r` with `r^k ≤ n`, given `lo^k ≤ n < hi^k`. -/
def rootSearch (k : Nat) : Nat → Nat → Nat → Nat → Nat
  | 0, _, lo, _ => lo
  | fuel+1, n, lo, hi =>
    if hi ≤ lo + 1 then lo
    else
      let mid := (lo + hi) / 2
      if mid ^ k ≤ n then rootSearch k fuel n mid hi else rootSearch k fuel n lo mid

/-- Integer `k`-th root (largest `r` with `r^k ≤ n`), for `n < hi^k`. -/
def introot (k n hi fuel : Nat) : Nat := rootSearch k fuel n 0 hi

/-- The first eighty primes, whose cube roots define the SHA-512 round constants. -/
def primes80 : List Nat :=
  [2, 3, 5, 7, 11, 13, 17, 19, 23, 29, 31, 37, 41, 43, 47, 53, 59, 61, 67, 71,
   73, 79, 83, 89, 97, 101, 103, 107, 109, 113, 127, 131, 137, 139, 149, 151,
   157, 163, 167, 173, 179, 181, 191, 193, 197, 199, 211, 223, 227, 229, 233,
   239, 241, 251, 257, 263, 269, 271, 277, 281, 283, 293, 307, 311, 313, 317,
   331, 337, 347, 349, 353, 359, 367, 373, 379, 383, 389, 397, 401, 409]

/-- The eighty SHA-512 round constants K: the first 64 bits of the fractional
parts of the cube roots of the first eighty primes (see `sha512K_from_primes`
below, which proves these literals equal to that definition). -/
def sha512K : List Nat :=
  [4794697086780616226, 8158064640168781261, 13096744586834688815, 16840607885511220156,
   4131703408338449720, 6480981068601479193, 10538285296894168987, 12329834152419229976,
   15566598209576043074, 1334009975649890238, 2608012711638119052, 6128411473006802146,
   8268148722764581231, 9286055187155687089, 11230858885718282805, 13951009754708518548,
   16472876342353939154, 17275323862435702243, 1135362057144423861, 2597628984639134821,
   3308224258029322869, 5365058923640841347, 6679025012923562964, 8573033837759648693,
   10970295158949994411, 12119686244451234320, 12683024718118986047, 13788192230050041572,
   14330467153632333762, 15395433587784984357, 489312712824947311, 1452737877330783856,
   2861767655752347644, 3322285676063803686, 5560940570517711597, 5996557281743188959,
   7280758554555802590, 8532644243296465576, 9350256976987008742, 10552545826968843579,
   11727347734174303076, 12113106623233404929, 14000437183269869457, 14369950271660146224,
   15101387698204529176, 15463397548674623760, 17586052441742319658, 1182934255886127544,
   1847814050463011016, 2177327727835720531, 2830643537854262169, 3796741975233480872,
   4115178125766777443, 5681478168544905931, 6601373596472566643, 7507060721942968483,
   8399075790359081724, 8693463985226723168, 9568029438360202098, 10144078919501101548,
   10430055236837252648, 11840083180663258601, 13761210420658862357, 14299343276471374635,
   14566680578165727644, 15097957966210449927, 16922976911328602910, 17689382322260857208,
   500013540394364858, 748580250866718886, 1242879168328830382, 1977374033974150939,
   2944078676154940804, 3659926193048069267, 4368137639120453308, 4836135668995329356,
   5532061633213252278, 6448918945643986474, 6902733635092675308, 7801388544844847127]

/-- Working state of one SHA-512 compression: eight 64-bit words. -/
structure Sha512St where
  a : Nat
  b : Nat
  c : Nat
  d : Nat
  e : Nat
  f : Nat
  g : Nat
  h : Nat
  deriving Repr, DecidableEq

/-- SHA-512 initial hash value: first 64 bits of the fractional parts of the
square roots of the first eight primes (see `sha512Init_from_primes`). -/
def sha512Init : Sha512St :=
  ⟨7640891576956012808, 13503953896175478587, 4354685564936845355, 11912009170470909681,
   5840696475078001361, 11170449401992604703, 2270897969802886507, 6620516959819538809⟩

/-- A single SHA-512 round on the working state; `kw` is `K[t] + W[t] mod 2^64`. -/
def sha512Round (s : Sha512St) (kw : Nat) : Sha512St :=
  let t1 := add64 s.h (add64 (bsig1 s.e) (add64 (ch64 s.e s.f s.g) kw))
  let t2 := add64 (bsig0 s.a) (maj64 s.a s.b s.c)
  ⟨add64 t1 t2, s.a, s.b, s.c, add64 s.d t1, s.e, s.f, s.g⟩

/-- Next message-schedule word from the (reversed) list of previous words. -/
def schedStep (acc : List Nat) : Nat :=
  add64 (add64 (ssig1 (acc.getD 1 0)) (acc.getD 6 0))
        (add64 (ssig0 (acc.getD 14 0)) (acc.getD 15 0))

/-- Extend the message schedule `n` more words; `acc` holds the words so far,
most recent first.  Returns the full schedule in order. -/
def schedRun : Nat → List Nat → List Nat
  | 0, acc => acc.reverse
  | n+1, acc => schedRun n (schedStep acc :: acc)

/-- Pointwise 64-bit addition of two compression states. -/
def sha512AddSt (x y : Sha512St) : Sha512St :=
  ⟨add64 x.a y.a, add64 x.b y.b, add64 x.c y.c, add64 x.d y.d,
   add64 x.e y.e, add64 x.f y.f, add64 x.g y.g, add64 x.h y.h⟩

/-- SHA-512 compression of one 16-word block into the chaining state. -/
def sha512Compress (h0 : Sha512St) (block : List Nat) : Sha512St :=
  let w := schedRun 64 block.reverse
  let kw := List.zipWith add64 sha512K w
  sha512AddSt h0 (kw.foldl sha512Round h0)

/-- Big-endian bytes of `n`, `k` bytes wide. -/
def beBytes : Nat → Nat → List Nat
  | 0, _ => []
  | k+1, n => ((n >>> (8 * k)) % 256) :: beBytes k n

/-- SHA-512 padding: append 0x80, zeros to 112 mod 128, then the 128-bit
big-endian bit length. -/
def padMessage (m : List Nat) : List Nat :=
  m ++ 128 :: List.replicate ((112 + 128 - ((m.length + 1) % 128)) % 128) 0
    ++ beBytes 16 (8 * m.length)

/-- A big-endian 64-bit word from eight bytes. -/
def w64OfBytes (bs : List Nat) : Nat := bs.foldl (fun acc b => acc * 256 + b) 0

/-- Split a list into chunks of `n`; `fuel` bounds the number of chunks. -/
def chunksOf : Nat → Nat → List Nat → List (List Nat)
  | 0, _, _ => []
  | _, _, [] => []
  | fuel+1, n, l => l.take n :: chunksOf fuel n (l.drop n)

/-- Split a padded message into 16-word blocks. -/
def toBlocks (m : List Nat) : List (List Nat) :=
  (chunksOf m.length 128 m).map (fun blk => (chunksOf 16 8 blk).map w64OfBytes)

/-- The eight words of a compression state, in order. -/
def sha512StWords (s : Sha512St) : List Nat := [s.a, s.b, s.c, s.d, s.e, s.f, s.g, s.h]

/-- SHA-512 digest (64 bytes) of a byte list. -/
def sha512Bytes (m : List Nat) : List Nat :=
  ((sha512StWords ((toBlocks (padMessage m)).foldl sha512Compress sha512Init)).map
    (beBytes 8)).flatten

/-- Lowercase hex digit for a value below 16. -/
def hexDigitChar (n : Nat) : Char := Char.ofNat (if n < 10 then 48 + n else 87 + n)

/-- Lowercase hex rendering of a byte list (what Python's `.hexdigest()` returns). -/
def bytesToHex (bs : List Nat) : String :=
  String.mk ((bs.map (fun b => [hexDigitChar (b / 16), hexDigitChar (b % 16)])).flatten)

/-- SHA-512 hex digest of a byte list. -/
def sha512Hex (m : List Nat) : String := bytesToHex (sha512Bytes m)

/-- HMAC-SHA-512 (RFC 2104): key padded or hashed to the 128-byte block size,
then nested hashing with the 0x36/0x5c pads. -/
def hmacSha512 (key msg : List Nat) : List Nat :=
  let k0 := if 128 < key.length
            then sha512Bytes key ++ List.replicate 64 0
            else key ++ List.replicate (128 - key.length) 0
  let inner := sha512Bytes ((k0.map (fun b => Nat.xor b 54)) ++ msg)
  sha512Bytes ((k0.map (fun b => Nat.xor b 92)) ++ inner)

/-- HMAC-SHA-512 hex digest, as `hmac.new(key, msg, hashlib.sha512).hexdigest()`. -/
def hmacSha512Hex (key msg : List Nat) : String := bytesToHex (hmacSha512 key msg)

/-- Bytes of an ASCII string (UTF-8 bytes coincide with code points here;
every string the embedded code hashes is plain ASCII). -/
def strBytes (s : String) : List Nat := s.toList.map Char.toNat

/-! ## Python/JSON values

`PyJson` models the Python values the payment code passes around: parsed
JSON payloads, gateway response dictionaries, and route results. -/

inductive PyJson where
  | null : PyJson
  | bool (b : Bool) : PyJson
  | num (n : Int) : PyJson
  | str (s : String) : PyJson
  | obj (fields : List (String × PyJson)) : PyJson
  | arr (items : List PyJson) : PyJson

/-- Fuel-bounded structural equality on `PyJson` (object fields compare in
order, as the embedded code only ever compares scalars). -/
def pyJsonBeq : Nat → PyJson → PyJson → Bool
  | 0, _, _ => false
  | _+1, PyJson.null, PyJson.null => true
  | _+1, PyJson.bool b1, PyJson.bool b2 => b1 == b2
  | _+1, PyJson.num n1, PyJson.num n2 => n1 == n2
  | _+1, PyJson.str s1, PyJson.str s2 => s1 == s2
  | f+1, PyJson.obj l1, PyJson.obj l2 =>
      l1.length == l2.length &&
        (List.zip l1 l2).all (fun p => p.1.1 == p.2.1 && pyJsonBeq f p.1.2 p.2.2)
  | f+1, PyJson.arr l1, PyJson.arr l2 =>
      l1.length == l2.length && (List.zip l1 l2).all (fun p => pyJsonBeq f p.1 p.2)
  | _+1, _, _ => false

instance : BEq PyJson := ⟨pyJsonBeq 1000⟩

/-- Comma-separated concatenation. -/
def commaJoin : List String → String
  | [] => ""
  | [s] => s
  | s :: rest => s ++ "," ++ commaJoin rest

/-- Fuel-bounded compact JSON rendering; strings in the modelled payloads are
escape-free ASCII, so plain quoting matches Python's output. -/
def pyJsonDump : Nat → PyJson → String
  | 0, _ => ""
  | _+1, PyJson.null => "null"
  | _+1, PyJson.bool true => "true"
  | _+1, PyJson.bool false => "false"
  | _+1, PyJson.num n => toString n
  | _+1, PyJson.str s => "\"" ++ s ++ "\""
  | f+1, PyJson.obj fields =>
      "\x7b" ++ commaJoin (fields.map (fun kv => "\"" ++ kv.1 ++ "\":" ++ pyJsonDump f kv.2)) ++ "\x7d"
  | f+1, PyJson.arr items => "[" ++ commaJoin (items.map (fun v => pyJsonDump f v)) ++ "]"

/-- Models `json.dumps(webhook_data, separators=(',', ':'))`
(paystack_integration.py line 190): compact re-serialization of a parsed
payload.  The fuel far exceeds the nesting depth of any webhook payload. -/
def jsonDumpsCompact (j : PyJson) : String := pyJsonDump 1000 j

/-- Drop leading JSON whitespace. -/
def skipWs : List Char → List Char
  | [] => []
  | c :: rest =>
    if c == ' ' || c == '\n' || c == '\t' || c == '\r' then skipWs rest else c :: rest

/-- Read a string literal body (after the opening quote); escape sequences are
not modelled (no modelled payload contains them). -/
def parseStrAux : List Char → List Char → Option (String × List Char)
  | acc, '"' :: rest => some (String.mk acc.reverse, rest)
  | _, '\\' :: _ => none
  | acc, c :: rest => parseStrAux (c :: acc) rest
  | _, [] => none

/-- Read a run of decimal digits, extending `acc`. -/
def parseDigitsAux : Nat → List Char → Nat × List Char
  | acc, c :: rest =>
    if c.isDigit then parseDigitsAux (10 * acc + (c.toNat - 48)) rest else (acc, c :: rest)
  | acc, [] => (acc, [])

/-- Parsing modes: a value, object fields (before a key), after an object
field, array items (before an item), after an array item. -/
inductive PMode where
  | val : PMode
  | objFields (acc : List (String × PyJson)) : PMode
  | objMore (acc : List (String × PyJson)) : PMode
  | arrItems (acc : List PyJson) : PMode
  | arrMore (acc : List PyJson) : PMode

/-- Fuel-bounded recursive-descent JSON reader (models `json.loads` on the
payload subset the system exchanges: objects, arrays, strings, integers,
booleans, null, with insignificant whitespace). -/
def parseP : Nat → PMode → List Char → Option (PyJson × List Char)
  | 0, _, _ => none
  | fuel+1, PMode.val, s =>
    match skipWs s with
    | '"' :: rest => (parseStrAux [] rest).map (fun sr => (PyJson.str sr.1, sr.2))
    | 't' :: 'r' :: 'u' :: 'e' :: rest => some (PyJson.bool true, rest)
    | 'f' :: 'a' :: 'l' :: 's' :: 'e' :: rest => some (PyJson.bool false, rest)
    | 'n' :: 'u' :: 'l' :: 'l' :: rest => some (PyJson.null, rest)
    | '{' :: rest => parseP fuel (PMode.objFields []) rest
    | '[' :: rest => parseP fuel (PMode.arrItems []) rest
    | '-' :: c :: rest =>
        if c.isDigit then
          let nr := parseDigitsAux (c.toNat - 48) rest
          some (PyJson.num (-(nr.1 : Int)), nr.2)
        else none
    | c :: rest =>
        if c.isDigit then
          let nr := parseDigitsAux (c.toNat - 48) rest
          some (PyJson.num (nr.1 : Int), nr.2)
        else none
    | [] => none
  | fuel+1, PMode.objFields acc, s =>
    match skipWs s with
    | '}' :: rest => if acc.isEmpty then some (PyJson.obj [], rest) else none
    | '"' :: rest =>
        (match parseStrAux [] rest with
         | none => none
         | some kr =>
           match skipWs kr.2 with
           | ':' :: rest2 =>
             (match parseP fuel PMode.val rest2 with
              | none => none
              | some vr => parseP fuel (PMode.objMore ((kr.1, vr.1) :: acc)) vr.2)
           | _ => none)
    | _ => none
  | fuel+1, PMode.objMore acc, s =>
    match skipWs s with
    | '}' :: rest => some (PyJson.obj acc.reverse, rest)
    | ',' :: rest => parseP fuel (PMode.objFields acc) rest
    | _ => none
  | fuel+1, PMode.arrItems acc, s =>
    match skipWs s with
    | ']' :: rest => if acc.isEmpty then some (PyJson.arr [], rest) else none
    | rest =>
      (match parseP fuel PMode.val rest with
       | none => none
       | some vr => parseP fuel (PMode.arrMore (vr.1 :: acc)) vr.2)
  | fuel+1, PMode.arrMore acc, s =>
    match skipWs s with
    | ']' :: rest => some (PyJson.arr acc.reverse, rest)
    | ',' :: rest => parseP fuel (PMode.arrItems acc) rest
    | _ => none

/-- Parse a whole JSON document (trailing whitespace only), as `json.loads`. -/
def parseJson (s : String) : Option PyJson :=
  match parseP (2 * s.length + 8) PMode.val s.toList with
  | none => none
  | some jr => if (skipWs jr.2).isEmpty then some jr.1 else none

/-- Python truthiness of a value (`if response.get('status'):` style tests). -/
def pyTruthy : PyJson → Bool
  | PyJson.null => false
  | PyJson.bool b => b
  | PyJson.num n => n != 0
  | PyJson.str s => s != ""
  | PyJson.obj l => !l.isEmpty
  | PyJson.arr l => !l.isEmpty

/-- Models Python `d.get(key, default)` on dictionaries.  The embedded code
only calls `.get` on dictionary payloads (a non-dict would raise
AttributeError; no modelled input reaches that). -/
def dictGetD (j : PyJson) (k : String) (d : PyJson) : PyJson :=
  match j with
  | PyJson.obj fields =>
    match fields.find? (fun kv => kv.1 == k) with
    | some kv => kv.2
    | none => d
  | _ => d

/-- Does a dictionary carry the key? -/
def hasKey (j : PyJson) (k : String) : Bool :=
  match j with
  | PyJson.obj fields => fields.any (fun kv => kv.1 == k)
  | _ => false

/-- Models Python `j[k1][k2]`: `none` when a lookup raises
(KeyError/TypeError), which the callers turn into a 500 response. -/
def jpath2 (j : PyJson) (k1 k2 : String) : Option PyJson :=
  match j with
  | PyJson.obj fields =>
    match fields.find? (fun kv => kv.1 == k1) with
    | some kv =>
      (match kv.2 with
       | PyJson.obj fs2 => (fs2.find? (fun kv2 => kv2.1 == k2)).map (fun kv2 => kv2.2)
       | _ => none)
    | none => none
  | _ => none

/-- The string payload of a value, if it is a string. -/
def jstrOpt : PyJson → Option String
  | PyJson.str s => some s
  | _ => none

/-- The string payload of a value, with a default for non-strings. -/
def jstrD (j : PyJson) (d : String) : String :=
  match j with
  | PyJson.str s => s
  | _ => d

/-! ## Data model

The subset of the SQLAlchemy models (`app.py` 52-134) the payment lifecycle
reads and writes: the users' subscription fields and the payment-transaction
ledger.  `subscription_expires` is an integer timestamp (seconds). -/

structure PyUser where
  id : Nat
  email : String
  subscription_type : String
  subscription_expires : Option Int
  deriving Repr, DecidableEq

structure PyTransaction where
  user_id : Nat
  paystack_reference : String
  amount : ℚ
  status : String
  plan_type : String
  deriving Repr, DecidableEq

structure DBState where
  users : List PyUser
  transactions : List PyTransaction
  deriving Repr, DecidableEq

/-- `User.query.filter_by(email=...).first()`. -/
def findUserByEmail (st : DBState) (email : String) : Option PyUser :=
  st.users.find? (fun u => u.email == email)

/-- `PaymentTransaction.query.filter_by(paystack_reference=...).first()`. -/
def findTransactionByRef (st : DBState) (ref : String) : Option PyTransaction :=
  st.transactions.find? (fun t => t.paystack_reference == ref)

/-- `PaymentTransaction.query.filter_by(paystack_reference=..., user_id=...).first()`. -/
def findTransactionByRefAndUser (st : DBState) (ref : String) (uid : Nat) : Option PyTransaction :=
  st.transactions.find? (fun t => t.paystack_reference == ref && t.user_id == uid)

/-- ORM attribute writes on the user with the given id, then commit. -/
def updateUser (st : DBState) (uid : Nat) (f : PyUser → PyUser) : DBState :=
  { st with users := st.users.map (fun u => if u.id == uid then f u else u) }

/-- ORM attribute writes on the transaction with the given reference, then
commit (references are unique, so at most one row matches). -/
def updateTransactionByRef (st : DBState) (ref : String) (f : PyTransaction → PyTransaction) : DBState :=
  { st with transactions := st.transactions.map (fun t => if t.paystack_reference == ref then f t else t) }

/-- `db.session.add(t)` followed by `db.session.commit()` under the UNIQUE
constraint on `paystack_reference` (app.py line 128): a duplicate reference
raises IntegrityError and nothing is persisted. -/
def addTransaction (st : DBState) (t : PyTransaction) : Except String DBState :=
  if st.transactions.any (fun t0 => t0.paystack_reference == t.paystack_reference) then
    Except.error "IntegrityError: UNIQUE constraint failed: payment_transactions.paystack_reference"
  else
    Except.ok { st with transactions := st.transactions ++ [t] }

/-- A `datetime.now()` reading: whole seconds plus a microsecond part. -/
structure PyDatetime where
  seconds : Int
  microseconds : Nat
  deriving Repr, DecidableEq

/-- Models `strftime('%Y%m%d%H%M%S')`: a decimal rendering of the clock at
whole-second resolution.  The calendar digit grouping is abstracted to the
second count; what the embedded code depends on is that the format is an
injective function of the whole seconds that drops the microseconds. -/
def strftime_YmdHMS (t : PyDatetime) : String := toString t.seconds

/-! ## Gateway client (`paystack_integration.py`, class PaystackPayment) -/

/-- The settled outcome of one HTTP exchange with the gateway: a transport
failure (requests.exceptions.RequestException) or a response with a status
code and a body (`none` when the body is not decodable JSON). -/
inductive HttpOutcome where
  | netError (msg : String) : HttpOutcome
  | response (code : Nat) (body : Option PyJson) : HttpOutcome

/-- paystack_integration.py line 36: the transaction reference
`f"eduhealth_{datetime.now().strftime('%Y%m%d%H%M%S')}_{hash(email) % 10000}"`.
Python's process-salted `hash(email)` is an ambient runtime value, passed in
as `emailHash`; `%` on `Int` agrees with Python's `%` (result in [0, 10000)). -/
def generate_reference (nowdt : PyDatetime) (emailHash : Int) : String :=
  "eduhealth_" ++ strftime_YmdHMS nowdt ++ "_" ++ toString (emailHash % 10000)

/-- paystack_integration.py 26-50: the initialize request payload.  The
USD→ZAR conversion `int(amount * 18 * 100)` is exact-rational multiplication
followed by truncation toward zero (Python `int()`), which `Int` division by
the denominator implements. -/
def initialize_payload (nowdt : PyDatetime) (emailHash : Int) (email : String) (amount : ℚ)
    (plan_type : String) (callback_url : Option String) : PyJson :=
  let amount_zar := amount * 18
  let amount_cents : Int := (amount_zar * 100).num / ((amount_zar * 100).den : Int)
  PyJson.obj
    [("email", PyJson.str email),
     ("amount", PyJson.num amount_cents),
     ("currency", PyJson.str "ZAR"),
     ("reference", PyJson.str (generate_reference nowdt emailHash)),
     ("callback_url", PyJson.str (callback_url.getD "http://127.0.0.1:5000/payment/success")),
     ("metadata", PyJson.obj
        [("plan_type", PyJson.str plan_type),
         ("platform", PyJson.str "eduhealth"),
         ("custom_fields", PyJson.arr
           [PyJson.obj [("display_name", PyJson.str "Plan Type"),
                        ("variable_name", PyJson.str "plan_type"),
                        ("value", PyJson.str plan_type)]])]),
     ("channels", PyJson.arr [PyJson.str "card", PyJson.str "bank", PyJson.str "ussd",
                              PyJson.str "qr", PyJson.str "mobile_money", PyJson.str "bank_transfer"])]

/-- paystack_integration.py 16-65, `initialize_transaction`: posts the payload
and returns the gateway body on HTTP 200 with truthy `status`; otherwise an
error dictionary.  `response.json()` is called before the status test, and a
JSON decode failure is a `requests` exception caught by the same handler as
transport failures. -/
def initialize_transaction (nowdt : PyDatetime) (emailHash : Int) (email : String) (amount : ℚ)
    (plan_type : String) (callback_url : Option String) (net : PyJson → HttpOutcome) : PyJson :=
  let payload := initialize_payload nowdt emailHash email amount plan_type callback_url
  match net payload with
  | HttpOutcome.netError e =>
      PyJson.obj [("status", PyJson.bool false),
                  ("message", PyJson.str "Payment initialization failed"),
                  ("error", PyJson.str e)]
  | HttpOutcome.response code body =>
      match body with
      | none =>
          PyJson.obj [("status", PyJson.bool false),
                      ("message", PyJson.str "Payment initialization failed"),
                      ("error", PyJson.str "JSONDecodeError")]
      | some response_data =>
          if code == 200 && pyTruthy (dictGetD response_data "status" PyJson.null) then
            response_data
          else
            PyJson.obj [("status", PyJson.bool false),
                        ("message", dictGetD response_data "message" (PyJson.str "Unknown error")),
                        ("error", PyJson.str (jsonDumpsCompact response_data))]

/-- paystack_integration.py 67-83, `verify_transaction`: GETs the verify
endpoint; `raise_for_status()` raises exactly for codes in [400, 600), caught
together with transport failures; for every code outside that window — below
400, including redirects such as 304, and at or above 600 (http.client
accepts any status in 100-999) — the JSON body is returned as-is. -/
def verify_transaction (outcome : HttpOutcome) : PyJson :=
  match outcome with
  | HttpOutcome.netError e =>
      PyJson.obj [("status", PyJson.bool false),
                  ("message", PyJson.str "Payment verification failed"),
                  ("error", PyJson.str e)]
  | HttpOutcome.response code body =>
      if 400 ≤ code ∧ code < 600 then
        PyJson.obj [("status", PyJson.bool false),
                    ("message", PyJson.str "Payment verification failed"),
                    ("error", PyJson.str "HTTPError")]
      else
        match body with
        | some j => j
        | none =>
            PyJson.obj [("status", PyJson.bool false),
                        ("message", PyJson.str "Payment verification failed"),
                        ("error", PyJson.str "JSONDecodeError")]

/-- paystack_integration.py 137-146, `verify_webhook_signature`: HMAC-SHA-512
hex digest of the given payload bytes under the secret key, compared with the
supplied signature (`hmac.compare_digest` is equality on the two strings). -/
def verify_webhook_signature (secret_key : String) (payload : List Nat) (signature : String) : Bool :=
  hmacSha512Hex (strBytes secret_key) payload == signature

/-! ## Webhook handler (`paystack_integration.py` 183-250) -/

/-- `{"status": "error", "message": "Invalid signature"}`. -/
def invalidSignatureResult : PyJson :=
  PyJson.obj [("status", PyJson.str "error"), ("message", PyJson.str "Invalid signature")]

/-- `{"status": "error", "message": str(e)}` from the handler's except block. -/
def webhookErrorResult (e : String) : PyJson :=
  PyJson.obj [("status", PyJson.str "error"), ("message", PyJson.str e)]

/-- `{"status": "processed"}` (line 250, the fall-through return). -/
def processedResult : PyJson := PyJson.obj [("status", PyJson.str "processed")]

/-- `{"status": "success", "message": "Subscription activated"}` (line 230). -/
def activatedResult : PyJson :=
  PyJson.obj [("status", PyJson.str "success"), ("message", PyJson.str "Subscription activated")]

/-- `{"status": "failed", "message": "Payment failed"}` (line 244). -/
def failedResult : PyJson :=
  PyJson.obj [("status", PyJson.str "failed"), ("message", PyJson.str "Payment failed")]

/-- paystack_integration.py 197-230, the `charge.success` branch: extract the
reference, customer email, amount (divided by 100) and metadata plan type;
look the user up BY EMAIL; if found, create a NEW completed transaction for
the reference and set the subscription, committing both together (a duplicate
reference raises IntegrityError at commit and nothing is persisted); if no
user matches, fall through to `{"status": "processed"}`.  `Except.error`
models exceptions reaching the handler's except block.  Modelling convention:
`dictGetD` reads `data.get('metadata', {}).get('plan_type', 'monthly')` for
metadata that is a dictionary or absent — the shapes the gateway sends and
the only ones any theorem's witness exercises; a present-but-non-dict
metadata value, on which Python's `.get` would raise AttributeError into the
except block, is outside the modelled payload shapes. -/
def webhook_charge_success (now : Int) (data : PyJson) (st : DBState) :
    Except String (PyJson × DBState) :=
  let reference := dictGetD data "reference" PyJson.null
  let customer_email := dictGetD (dictGetD data "customer" (PyJson.obj [])) "email" PyJson.null
  match dictGetD data "amount" (PyJson.num 0) with
  | PyJson.num amt =>
    let amount : ℚ := (amt : ℚ) / 100
    let metadata := dictGetD data "metadata" (PyJson.obj [])
    let plan_type := dictGetD metadata "plan_type" (PyJson.str "monthly")
    (match jstrOpt customer_email with
     | some em =>
       (match findUserByEmail st em with
        | some user =>
          (match jstrOpt reference with
           | some refS =>
             let payment : PyTransaction :=
               ⟨user.id, refS, amount, "completed", jstrD plan_type ""⟩
             let expires : Int :=
               if plan_type == PyJson.str "annual" then now + 365 * 86400 else now + 30 * 86400
             let st1 := updateUser st user.id (fun u =>
               { u with subscription_type := "premium", subscription_expires := some expires })
             (match addTransaction st1 payment with
              | Except.ok st2 => Except.ok (activatedResult, st2)
              | Except.error e => Except.error e)
           | none =>
             Except.error "IntegrityError: NOT NULL constraint failed: payment_transactions.paystack_reference")
        | none => Except.ok (processedResult, st))
     | none => Except.ok (processedResult, st))
  | _ => Except.error "TypeError: unsupported operand type(s) for /"

/-- paystack_integration.py 232-244, the `charge.failed` branch: if a
transaction with the reference exists, set its status to `failed`
(unconditionally — whatever its current status); the users are untouched. -/
def webhook_charge_failed (data : PyJson) (st : DBState) : PyJson × DBState :=
  let reference := dictGetD data "reference" PyJson.null
  match jstrOpt reference with
  | some refS =>
    (match findTransactionByRef st refS with
     | some _ => (failedResult, updateTransactionByRef st refS (fun t => { t with status := "failed" }))
     | none => (failedResult, st))
  | none => (failedResult, st)

/-- Event dispatch of the webhook handler (lines 194-250, after the
signature check). -/
def webhook_dispatch (now : Int) (wd : PyJson) (st : DBState) : Except String (PyJson × DBState) :=
  let event := dictGetD wd "event" PyJson.null
  let data := dictGetD wd "data" (PyJson.obj [])
  if event == PyJson.str "charge.success" then
    webhook_charge_success now data st
  else if event == PyJson.str "charge.failed" then
    Except.ok (webhook_charge_failed data st)
  else
    Except.ok (processedResult, st)

/-- The handler's outer `except Exception`: exceptions become
`{"status": "error", "message": str(e)}` with no state change. -/
def webhook_settle (st : DBState) : Except String (PyJson × DBState) → PyJson × DBState
  | Except.ok r => r
  | Except.error e => (webhookErrorResult e, st)

/-- paystack_integration.py 183-250, `handle_paystack_webhook`: verify the
signature over `json.dumps(webhook_data, separators=(',', ':'))` — a compact
RE-SERIALIZATION of the already-parsed payload, not the raw request bytes —
then dispatch on the event.  A missing signature header reaches
`hmac.compare_digest` as None and raises TypeError into the except block. -/
def handle_paystack_webhook (secret : String) (now : Int) (webhook_data : PyJson)
    (signature : Option String) (st : DBState) : PyJson × DBState :=
  match signature with
  | none => (webhookErrorResult "TypeError: unsupported types for compare_digest", st)
  | some s =>
    if !(verify_webhook_signature secret (strBytes (jsonDumpsCompact webhook_data)) s) then
      (invalidSignatureResult, st)
    else
      webhook_settle st (webhook_dispatch now webhook_data st)

/-! ## Flask routes (`app.py`)

app.py registers TWO view functions on the same rule `POST
/api/payment/webhook`: `paystack_webhook` (line 475) and `payment_webhook`
(line 552).  Werkzeug keeps identical rules in registration order and its
matcher returns the first match, so every real webhook delivery is dispatched
to the FIRST-registered `paystack_webhook`; the later `payment_webhook`
registration is shadowed and unreachable from HTTP.  Both are embedded below:
the first because it is the program's live webhook behaviour, the second
because several frozen claims cite it. -/

/-- app.py 552-565, `payment_webhook` — the SECOND view function registered on
`POST /api/payment/webhook`, shadowed by the first-registered
`paystack_webhook` and therefore unreachable from HTTP (dead code).  As
written: `request.get_json()` parses the raw body (an unparseable body aborts
with 400 before the handler runs), then `handle_paystack_webhook` is called
and its result returned with `jsonify` — HTTP 200 whatever the result says. -/
def payment_webhook (secret : String) (now : Int) (rawBody : String) (signature : Option String)
    (st : DBState) : (Nat × PyJson) × DBState :=
  match parseJson rawBody with
  | none => ((400, PyJson.obj [("error", PyJson.str "Bad Request")]), st)
  | some webhook_data =>
    let r := handle_paystack_webhook secret now webhook_data signature st
    ((200, r.1), r.2)

/-- Models Python `j[k]` subscription: `none` when the access raises
(KeyError on a missing key, TypeError on a non-dict). -/
def jIndex (j : PyJson) (k : String) : Option PyJson :=
  match j with
  | PyJson.obj fields => (fields.find? (fun kv => kv.1 == k)).map (fun kv => kv.2)
  | _ => none

/-- `{'error': 'Webhook processing failed'}` — the 500 body of app.py 508. -/
def webhookFailedResult : PyJson := PyJson.obj [("error", PyJson.str "Webhook processing failed")]

/-- `{'error': 'Invalid webhook'}` — the 400 body of app.py 505. -/
def invalidWebhookResult : PyJson := PyJson.obj [("error", PyJson.str "Invalid webhook")]

/-- The attribute `paystack.verify_webhook` looked up at app.py line 484:
class PaystackPayment (paystack_integration.py 8-166) defines
`verify_webhook_signature` but NO attribute named `verify_webhook`, so the
lookup finds nothing — `none` — and the call site raises AttributeError.
The type is the call signature the site would need were the method present. -/
def paystack_verify_webhook : Option (List Nat → Option String → Bool) := none

/-- app.py 485-505: the body of `paystack_webhook` past the
`paystack.verify_webhook` call, embedded as written (it is dead code in the
program — the call raises first): parse the body (`request.get_json`; a parse
failure raises BadRequest into the route's `except Exception`, hence 500, not
400), dispatch on `data['event']` (KeyError on a missing key), and on
`charge.success` look the Transaction up BY REFERENCE: if found, complete it
and upgrade its owner; every other case falls through to
400 `{'error': 'Invalid webhook'}`. -/
def paystack_webhook_after_verify (now : Int) (rawBody : String) (st : DBState) :
    Except String ((Nat × PyJson) × DBState) :=
  match parseJson rawBody with
  | none => Except.error "BadRequest: request.get_json() could not parse the body"
  | some data =>
    match jIndex data "event" with
    | none => Except.error "KeyError: event"
    | some ev =>
      if ev == PyJson.str "charge.success" then
        match jIndex data "data" with
        | none => Except.error "KeyError: data"
        | some d =>
          match jIndex d "reference" with
          | none => Except.error "KeyError: reference"
          | some refJ =>
            match jstrOpt refJ with
            | some ref =>
              (match findTransactionByRef st ref with
               | some payment =>
                 let st1 := updateTransactionByRef st ref (fun t => { t with status := "completed" })
                 let st2 := updateUser st1 payment.user_id (fun u =>
                   { u with subscription_type := "premium",
                            subscription_expires := some (now + (if payment.plan_type == "annual" then 365 else 30) * 86400) })
                 Except.ok ((200, PyJson.obj [("status", PyJson.str "success")]), st2)
               | none => Except.ok ((400, invalidWebhookResult), st))
            | none => Except.ok ((400, invalidWebhookResult), st)
      else Except.ok ((400, invalidWebhookResult), st)

/-- app.py 475-509, `paystack_webhook` — the FIRST view function registered on
`POST /api/payment/webhook`, hence the one Werkzeug dispatches every webhook
delivery to.  Inside its try block it reads the signature header and the raw
bytes, then evaluates `paystack.verify_webhook(payload, signature)` (line
484): the attribute does not exist (`paystack_verify_webhook = none`), the
AttributeError is caught by `except Exception` (line 507), and the route
answers 500 `{'error': 'Webhook processing failed'}` — for EVERY delivery,
before any signature check, parse, or database write.  The `some` arm embeds
the rest of the body as written for the hypothetical attribute value; it is
never taken. -/
def paystack_webhook (now : Int) (rawBody : String) (signature : Option String)
    (st : DBState) : (Nat × PyJson) × DBState :=
  let attempt : Except String ((Nat × PyJson) × DBState) :=
    match paystack_verify_webhook with
    | none => Except.error "AttributeError: PaystackPayment object has no attribute verify_webhook"
    | some verify =>
      if verify (strBytes rawBody) signature then
        paystack_webhook_after_verify now rawBody st
      else
        Except.ok ((400, invalidWebhookResult), st)
  match attempt with
  | Except.ok r => r
  | Except.error _ => ((500, webhookFailedResult), st)

/-- The behaviour of `POST /api/payment/webhook` as the program serves it:
Werkzeug dispatches the rule to the first-registered view, `paystack_webhook`. -/
def api_payment_webhook (now : Int) (rawBody : String) (signature : Option String)
    (st : DBState) : (Nat × PyJson) × DBState :=
  paystack_webhook now rawBody signature st

/-- The three observable outcomes of the `payment/success` page (app.py
450-473): the success template, the error template, or an unhandled
exception (Flask 500). -/
inductive PageResult where
  | successPage : PageResult
  | errorPage : PageResult
  | serverError : PageResult
  deriving Repr, DecidableEq

/-- app.py 450-473, `payment_success` (the poll path after redirect): verify
with the gateway; on a success verdict, look up the transaction by reference
and — unconditionally, whatever its current status — set it `completed` and
rewrite the owner's subscription.  A success verdict with no ledger row still
renders the success page (line 471 sits outside the `if payment:` block).
Modelling convention for `if reference:`: the Python guard is a truthiness
test on the query parameter, false for both a missing and an empty-string
parameter; `reference = none` here encodes that whole falsy case, and
`reference = some r` encodes a present NON-EMPTY parameter — `some ""` is
outside the model's image of program states. -/
def payment_success (gw : String → HttpOutcome) (now : Int) (reference : Option String)
    (st : DBState) : PageResult × DBState :=
  match reference with
  | none => (PageResult.errorPage, st)
  | some ref =>
    let verification := verify_transaction (gw ref)
    if pyTruthy (dictGetD verification "status" PyJson.null) then
      match jpath2 verification "data" "status" with
      | none => (PageResult.serverError, st)
      | some ds =>
        if ds == PyJson.str "success" then
          match findTransactionByRef st ref with
          | some payment =>
            let st1 := updateTransactionByRef st ref (fun t => { t with status := "completed" })
            let st2 := updateUser st1 payment.user_id (fun u =>
              { u with subscription_type := "premium",
                       subscription_expires := some (now + (if payment.plan_type == "annual" then 365 else 30) * 86400) })
            (PageResult.successPage, st2)
          | none => (PageResult.successPage, st)
        else (PageResult.errorPage, st)
    else (PageResult.errorPage, st)

/-- The 200 body of `verify_payment` (app.py 540-544); the expiry is returned
as the timestamp just written. -/
def verifiedResult (expires : Int) : PyJson :=
  PyJson.obj [("message", PyJson.str "Payment verified and subscription activated!"),
              ("subscription_type", PyJson.str "premium"),
              ("expires", PyJson.num expires)]

/-- app.py 511-550, `verify_payment` (the authenticated poll path): verify
with the gateway; on a success verdict, look up the transaction by reference
and current user and — unconditionally, whatever its current status — set it
`completed` and rewrite the current user's subscription to premium with
expiry now + 365 days (annual) or now + 30 days (otherwise); missing keys in
the gateway body raise into the except block (500). -/
def verify_payment (gw : String → HttpOutcome) (now : Int) (uid : Nat) (reference : String)
    (st : DBState) : (Nat × PyJson) × DBState :=
  let response := verify_transaction (gw reference)
  if pyTruthy (dictGetD response "status" PyJson.null) then
    match jpath2 response "data" "status" with
    | none => ((500, PyJson.obj [("error", PyJson.str "Payment verification failed")]), st)
    | some ds =>
      if ds == PyJson.str "success" then
        match findTransactionByRefAndUser st reference uid with
        | some payment =>
          let st1 := updateTransactionByRef st reference (fun t => { t with status := "completed" })
          let expires : Int := now + (if payment.plan_type == "annual" then 365 else 30) * 86400
          let st2 := updateUser st1 uid (fun u =>
            { u with subscription_type := "premium", subscription_expires := some expires })
          ((200, verifiedResult expires), st2)
        | none => ((400, PyJson.obj [("error", PyJson.str "Payment verification failed")]), st)
      else ((400, PyJson.obj [("error", PyJson.str "Payment verification failed")]), st)
  else ((400, PyJson.obj [("error", PyJson.str "Payment verification failed")]), st)

/-- app.py 411-448, `initialize_payment`: plan type from
`data.get('plan_type', 'monthly')` with NO validation — any value other than
the exact string "annual" is charged the monthly price 9.99; on a truthy
gateway response a pending transaction is recorded under the gateway's
reference (exceptions — KeyError on a malformed body, IntegrityError on a
duplicate reference — reach the except block: 500); on a falsy response, 400
with the gateway's message.  Modelling convention: the request's plan_type is
read through `jstrD`, which is exact for the absent-or-string values every
theorem quantifies over; a present non-string plan value (which Python would
carry opaquely into the comparison and the stored row) is outside the
modelled request shapes. -/
def initialize_payment (nowdt : PyDatetime) (emailHash : Int) (uid : Nat) (userEmail : String)
    (net : PyJson → HttpOutcome) (data : PyJson) (st : DBState) : (Nat × PyJson) × DBState :=
  let plan_type := jstrD (dictGetD data "plan_type" (PyJson.str "monthly")) ""
  let amount : ℚ := if plan_type == "annual" then 9999/100 else 999/100
  let response := initialize_transaction nowdt emailHash userEmail amount plan_type
      (jstrOpt (dictGetD data "callback_url" PyJson.null)) net
  if pyTruthy (dictGetD response "status" PyJson.null) then
    match jpath2 response "data" "reference" with
    | some (PyJson.str refS) =>
      (match addTransaction st ⟨uid, refS, amount, "pending", plan_type⟩ with
       | Except.ok st2 => ((200, response), st2)
       | Except.error _ => ((500, PyJson.obj [("error", PyJson.str "Payment initialization failed")]), st))
    | _ => ((500, PyJson.obj [("error", PyJson.str "Payment initialization failed")]), st)
  else
    ((400, PyJson.obj [("error", dictGetD response "message" (PyJson.str "Payment initialization failed"))]), st)

/-! ## Concrete inputs and helper definitions for the verification -/

/-- A gateway verify response reporting success. -/
def gwOkBody : PyJson :=
  PyJson.obj [("status", PyJson.bool true), ("data", PyJson.obj [("status", PyJson.str "success")])]

/-- A gateway that reports success for every reference. -/
def gwOK : String → HttpOutcome := fun _ => HttpOutcome.response 200 (some gwOkBody)

/-- A gateway initialize response carrying a reference. -/
def gwInitOk (r : String) : PyJson :=
  PyJson.obj [("status", PyJson.bool true), ("data", PyJson.obj [("reference", PyJson.str r)])]

/-- The `data` object of a `charge.success` webhook payload. -/
def successData (ref email : String) (amountMinor : Int) (metadata : PyJson) : PyJson :=
  PyJson.obj [("reference", PyJson.str ref),
              ("customer", PyJson.obj [("email", PyJson.str email)]),
              ("amount", PyJson.num amountMinor),
              ("metadata", metadata)]

/-- A `charge.success` webhook payload. -/
def successEvent (ref email : String) (amountMinor : Int) (metadata : PyJson) : PyJson :=
  PyJson.obj [("event", PyJson.str "charge.success"),
              ("data", successData ref email amountMinor metadata)]

/-- A `charge.failed` webhook payload. -/
def failedEvent (ref : String) : PyJson :=
  PyJson.obj [("event", PyJson.str "charge.failed"),
              ("data", PyJson.obj [("reference", PyJson.str ref)])]

/-- The signature Paystack would send for the handler's own serialization of
`wd`: the HMAC-SHA-512 hex digest of the compact re-serialization. -/
def sigFor (secret : String) (wd : PyJson) : String :=
  hmacSha512Hex (strBytes secret) (strBytes (jsonDumpsCompact wd))

/-- The spec's `GatewayError{status=false, message}` shape: `status` is
literally `false` and a `message` key is present. -/
def isGatewayErrorShape (j : PyJson) : Bool :=
  (dictGetD j "status" PyJson.null == PyJson.bool false) && hasKey j "message"

/-- A completed monthly transaction for reference R1 owned by user 1. -/
def txR1completed : PyTransaction := ⟨1, "R1", 999/100, "completed", "monthly"⟩

/-- A failed monthly transaction for reference R1 owned by user 1. -/
def txR1failed : PyTransaction := ⟨1, "R1", 999/100, "failed", "monthly"⟩

/-- One free user, empty ledger. -/
def stFreshUser : DBState := ⟨[⟨1, "a@x.com", "free", none⟩], []⟩

/-- The state after a first successful monthly reconciliation at time 0:
premium until 2592000 = 30 days, one completed transaction for R1. -/
def stReconciled : DBState :=
  ⟨[⟨1, "a@x.com", "premium", some 2592000⟩], [txR1completed]⟩

/-- One free user and a failed transaction for R1. -/
def stFailedTx : DBState := ⟨[⟨1, "a@x.com", "free", none⟩], [txR1failed]⟩

/-- A minimal webhook payload whose event is neither success nor failure. -/
def wdPlain : PyJson := PyJson.obj [("event", PyJson.str "x")]

/-- Raw bytes whose parse is `wdPlain` but which differ from the compact
serialization by one inserted space. -/
def rawSpaced : String := "\x7b\"event\": \"x\"\x7d"

/-- The compact serialization of `wdPlain`, as raw bytes. -/
def rawCompact : String := "\x7b\"event\":\"x\"\x7d"

/-- A second minimal payload and its raw form, for the C8 witness. -/
def wdPlainY : PyJson := PyJson.obj [("event", PyJson.str "y")]

/-- Raw bytes parsing to `wdPlainY`. -/
def rawCompactY : String := "\x7b\"event\":\"y\"\x7d"

/-- A pending transaction whose plan type is the unvalidated string "gold". -/
def txGold : PyTransaction := ⟨1, "RG", 999/100, "pending", "gold"⟩

/-- One free user and the pending "gold" transaction. -/
def stGold : DBState := ⟨[⟨1, "a@x.com", "free", none⟩], [txGold]⟩

/-! ## Validation of the SHA-512 embedding -/

/-- The SHA-512 round-constant literals equal the FIPS 180-4 definition:
first 64 bits of the fractional parts of the cube roots of the first eighty
primes. -/
theorem sha512K_from_primes :
    sha512K = primes80.map (fun p => (introot 3 (p * 2 ^ 192) (2 ^ 68) 80) % 18446744073709551616) := by
  decide

/-- The SHA-512 initial state equals the FIPS 180-4 definition: first 64 bits
of the fractional parts of the square roots of the first eight primes. -/
theorem sha512Init_from_primes :
    sha512StWords sha512Init
      = (primes80.take 8).map (fun p => (introot 2 (p * 2 ^ 128) (2 ^ 69) 80) % 18446744073709551616) := by
  decide

/-- FIPS 180-4 test vector: SHA-512 of "abc". -/
theorem sha512_abc_vector :
    sha512Hex (strBytes "abc")
      = "ddaf35a193617abacc417349ae20413112e6fa4e89a97ea20a9eeee64b55d39a2192992a274fc1a836ba3c23a3feebbd454d4423643ce80e2a9ac94fa54ca49f" := by
  decide

/-- RFC 4231 test case 2: HMAC-SHA-512 with key "Jefe". -/
theorem hmac_rfc4231_case2 :
    hmacSha512Hex (strBytes "Jefe") (strBytes "what do ya want for nothing?")
      = "164b7a7bfcf819e2e395fbe73b56e0a387bd64222e831fd610270cd7ea2505549758bf75c05a994a6d034f65f8f0e6fdcaeab1a34d4a6b4b636e070a38bce737" := by
  decide

/-! ## Helper lemmas about the embedded operations -/

/-- The signature computed by `sigFor` passes the handler's verification. -/
theorem verify_sigFor (secret : String) (wd : PyJson) :
    verify_webhook_signature secret (strBytes (jsonDumpsCompact wd)) (sigFor secret wd) = true := by
  simp [verify_webhook_signature, sigFor]

/-- With the matching signature, the handler runs the event dispatch. -/
theorem handle_valid_sig (secret : String) (now : Int) (wd : PyJson) (st : DBState) :
    handle_paystack_webhook secret now wd (some (sigFor secret wd)) st
      = webhook_settle st (webhook_dispatch now wd st) := by
  simp [handle_paystack_webhook, verify_sigFor]

/-- With a failing signature, the handler rejects and changes nothing. -/
theorem handle_invalid_sig (secret : String) (now : Int) (wd : PyJson) (st : DBState) (s : String)
    (h : verify_webhook_signature secret (strBytes (jsonDumpsCompact wd)) s = false) :
    handle_paystack_webhook secret now wd (some s) st = (invalidSignatureResult, st) := by
  simp [handle_paystack_webhook, h]

/-- Dispatch of a `charge.success` payload. -/
theorem dispatch_success (now : Int) (ref email : String) (amt : Int) (md : PyJson) (st : DBState) :
    webhook_dispatch now (successEvent ref email amt md) st
      = webhook_charge_success now (successData ref email amt md) st := rfl

/-- Dispatch of a `charge.failed` payload. -/
theorem dispatch_failed (now : Int) (ref : String) (st : DBState) :
    webhook_dispatch now (failedEvent ref) st
      = Except.ok (webhook_charge_failed (PyJson.obj [("reference", PyJson.str ref)]) st) := rfl

/-- `updateUser` does not touch the ledger. -/
theorem updateUser_transactions (st : DBState) (uid : Nat) (f : PyUser → PyUser) :
    (updateUser st uid f).transactions = st.transactions := rfl

/-- `updateTransactionByRef` does not touch the users. -/
theorem updateTransactionByRef_users (st : DBState) (ref : String) (f : PyTransaction → PyTransaction) :
    (updateTransactionByRef st ref f).users = st.users := rfl

/-- `jstrD` on a string value. -/
theorem jstrD_str (s d : String) : jstrD (PyJson.str s) d = s := rfl

/-- If no transaction carries the reference, the commit-time uniqueness scan
comes up empty. -/
theorem any_ref_false_of_find_none (st : DBState) (ref : String)
    (h : findTransactionByRef st ref = none) :
    st.transactions.any (fun t0 => t0.paystack_reference == ref) = false := by
  unfold findTransactionByRef at h
  rw [List.find?_eq_none] at h
  rw [List.any_eq_false]
  intro x hx
  exact h x hx

/-- If some transaction carries the reference, the commit-time uniqueness scan
finds it. -/
theorem any_ref_true_of_find_ne_none (st : DBState) (ref : String)
    (h : findTransactionByRef st ref ≠ none) :
    st.transactions.any (fun t0 => t0.paystack_reference == ref) = true := by
  unfold findTransactionByRef at h
  rw [Ne, Option.eq_none_iff_forall_not_mem] at h
  push_neg at h
  obtain ⟨t, ht⟩ := h
  rw [List.any_eq_true]
  exact ⟨t, List.mem_of_find?_eq_some ht, by
    have := List.find?_some ht
    exact this⟩

/-- The `charge.success` branch on a canonical payload, reduced to its
state-dependent core. -/
theorem charge_success_eq (now : Int) (ref email : String) (amt : Int) (md : PyJson) (st : DBState) :
    webhook_charge_success now (successData ref email amt md) st
      = (match findUserByEmail st email with
         | some user =>
           (match addTransaction
               (updateUser st user.id (fun u =>
                 { u with subscription_type := "premium",
                          subscription_expires := some
                            (if dictGetD md "plan_type" (PyJson.str "monthly") == PyJson.str "annual"
                             then now + 365 * 86400 else now + 30 * 86400) }))
               ⟨user.id, ref, (amt : ℚ) / 100, "completed",
                jstrD (dictGetD md "plan_type" (PyJson.str "monthly")) ""⟩ with
            | Except.ok st2 => Except.ok (activatedResult, st2)
            | Except.error e => Except.error e)
         | none => Except.ok (processedResult, st)) := rfl

/-- The `charge.failed` branch, reduced to its state-dependent core. -/
theorem charge_failed_eq (ref : String) (st : DBState) :
    webhook_charge_failed (PyJson.obj [("reference", PyJson.str ref)]) st
      = (failedResult,
         match findTransactionByRef st ref with
         | some _ => updateTransactionByRef st ref (fun t => { t with status := "failed" })
         | none => st) := by
  show (match findTransactionByRef st ref with
        | some _ => (failedResult, updateTransactionByRef st ref (fun t => { t with status := "failed" }))
        | none => (failedResult, st)) = _
  cases findTransactionByRef st ref <;> rfl

/-- `verify_payment` when the gateway reports success and the ledger has the
row: full characterization of the result and the two writes. -/
theorem verify_payment_found (gw : String → HttpOutcome) (now : Int) (uid : Nat) (ref : String)
    (st : DBState) (pay : PyTransaction)
    (hok : pyTruthy (dictGetD (verify_transaction (gw ref)) "status" PyJson.null) = true)
    (hds : jpath2 (verify_transaction (gw ref)) "data" "status" = some (PyJson.str "success"))
    (hfind : findTransactionByRefAndUser st ref uid = some pay) :
    verify_payment gw now uid ref st
      = ((200, verifiedResult (now + (if pay.plan_type == "annual" then 365 else 30) * 86400)),
         { users := st.users.map (fun u =>
             if u.id == uid then
               { u with subscription_type := "premium",
                        subscription_expires := some (now + (if pay.plan_type == "annual" then 365 else 30) * 86400) }
             else u),
           transactions := st.transactions.map (fun t =>
             if t.paystack_reference == ref then { t with status := "completed" } else t) }) := by
  simp only [verify_payment]
  rw [hok, hds, hfind]
  rfl

/-- `payment_success` when the gateway reports success and the ledger has the
row: full characterization. -/
theorem payment_success_found (gw : String → HttpOutcome) (now : Int) (ref : String)
    (st : DBState) (pay : PyTransaction)
    (hok : pyTruthy (dictGetD (verify_transaction (gw ref)) "status" PyJson.null) = true)
    (hds : jpath2 (verify_transaction (gw ref)) "data" "status" = some (PyJson.str "success"))
    (hfind : findTransactionByRef st ref = some pay) :
    payment_success gw now (some ref) st
      = (PageResult.successPage,
         { users := st.users.map (fun u =>
             if u.id == pay.user_id then
               { u with subscription_type := "premium",
                        subscription_expires := some (now + (if pay.plan_type == "annual" then 365 else 30) * 86400) }
             else u),
           transactions := st.transactions.map (fun t =>
             if t.paystack_reference == ref then { t with status := "completed" } else t) }) := by
  simp only [payment_success]
  rw [hok, hds, hfind]
  rfl

/-! ## Claims C1-C5 -/

/-- C1 counterexample: with a Transaction for R1 already completed (state
`stReconciled`, expiry 2592000 written at the first success at time 0), a
second success invocation through the poll-verify path at time 86400 returns
success and keeps exactly one completed Transaction, but it re-writes the
user's `subscription_expires` (to 86400 + 30 days), so the second invocation
is NOT a no-op on the user and performs a second subscription-expiry write. -/
theorem claim_C1_counterexample :
    (verify_payment gwOK 86400 1 "R1" stReconciled).1.1 = 200 ∧
    (verify_payment gwOK 86400 1 "R1" stReconciled).2.transactions = stReconciled.transactions ∧
    (verify_payment gwOK 86400 1 "R1" stReconciled).2.users
      = [⟨1, "a@x.com", "premium", some 2678400⟩] ∧
    (verify_payment gwOK 86400 1 "R1" stReconciled).2 ≠ stReconciled :=
  ⟨rfl, rfl, rfl, by decide⟩

/-- C1 (amended): invoking the success transition again for an
already-completed Transaction returns success (HTTP 200) and leaves the
ledger rows as they were (the completed status is re-written in place, so
there is still exactly one completed Transaction for the reference), but it
performs a SECOND subscription-expiry write: the owning user's
`subscription_expires` is set to the second invocation's `now` plus the plan
duration, so it is unchanged only when both invocations read the same clock. -/
theorem claim_C1_amended (gw : String → HttpOutcome) (now : Int) (uid : Nat) (ref : String)
    (st : DBState) (pay : PyTransaction)
    (hok : pyTruthy (dictGetD (verify_transaction (gw ref)) "status" PyJson.null) = true)
    (hds : jpath2 (verify_transaction (gw ref)) "data" "status" = some (PyJson.str "success"))
    (hfind : findTransactionByRefAndUser st ref uid = some pay)
    (_hdone : pay.status = "completed") :
    (verify_payment gw now uid ref st).1.1 = 200 ∧
    (verify_payment gw now uid ref st).2.transactions
      = st.transactions.map (fun t => if t.paystack_reference == ref then { t with status := "completed" } else t) ∧
    (verify_payment gw now uid ref st).2.users
      = st.users.map (fun u => if u.id == uid then
          { u with subscription_type := "premium",
                   subscription_expires := some (now + (if pay.plan_type == "annual" then 365 else 30) * 86400) }
        else u) := by
  rw [verify_payment_found gw now uid ref st pay hok hds hfind]
  exact ⟨rfl, rfl, rfl⟩

/-- C1 witness: the amended theorem applied at the concrete reconciled state. -/
theorem claim_C1_witness :
    pyTruthy (dictGetD (verify_transaction (gwOK "R1")) "status" PyJson.null) = true ∧
    jpath2 (verify_transaction (gwOK "R1")) "data" "status" = some (PyJson.str "success") ∧
    findTransactionByRefAndUser stReconciled "R1" 1 = some txR1completed ∧
    txR1completed.status = "completed" ∧
    ((verify_payment gwOK 86400 1 "R1" stReconciled).1.1 = 200 ∧
     (verify_payment gwOK 86400 1 "R1" stReconciled).2.transactions
       = stReconciled.transactions.map (fun t => if t.paystack_reference == "R1" then { t with status := "completed" } else t) ∧
     (verify_payment gwOK 86400 1 "R1" stReconciled).2.users
       = stReconciled.users.map (fun u => if u.id == 1 then
           { u with subscription_type := "premium",
                    subscription_expires := some (86400 + (if txR1completed.plan_type == "annual" then 365 else 30) * 86400) }
         else u)) :=
  ⟨rfl, rfl, rfl, rfl, claim_C1_amended gwOK 86400 1 "R1" stReconciled txR1completed rfl rfl rfl rfl⟩

/-- C2 counterexample: on the live poll-landing path `payment_success`, a
gateway-confirmed success signal for reference RX with NO Transaction in the
ledger is answered with the payment-SUCCESS page (app.py line 471 sits
outside the `if payment:` block) — the signal is not reported as a failure,
contradicting the claim — though, consistently with its frame part, no user
is mutated (the state is unchanged). -/
theorem claim_C2_counterexample :
    findTransactionByRef stFreshUser "RX" = none ∧
    payment_success gwOK 0 (some "RX") stFreshUser = (PageResult.successPage, stFreshUser) ∧
    PageResult.successPage ≠ PageResult.errorPage :=
  ⟨rfl, rfl, by decide⟩

/-- C2 (amended): a success signal for an unknown reference mutates no user
on any reachable path, but it is not uniformly reported as a failure: the
live webhook route answers 500 for every delivery (it faults on the
nonexistent `verify_webhook` before any processing), and `verify_payment`
answers 400 when the reference matches no row, but `payment_success` renders
the payment-SUCCESS page for a gateway-confirmed reference with no ledger row
(writing nothing).  The email-keyed path in the shadowed, HTTP-unreachable
handler `handle_paystack_webhook` would, had it been reachable, silently
create a completed Transaction under the unknown reference and upgrade the
user whose email the payload carries. -/
theorem claim_C2_amended
    (gw : String → HttpOutcome) (now : Int) (uid : Nat) (ref : String) (st : DBState)
    (hok : pyTruthy (dictGetD (verify_transaction (gw ref)) "status" PyJson.null) = true)
    (hds : jpath2 (verify_transaction (gw ref)) "data" "status" = some (PyJson.str "success")) :
    (∀ (rawBody : String) (sig : Option String),
        api_payment_webhook now rawBody sig st = ((500, webhookFailedResult), st)) ∧
    (findTransactionByRefAndUser st ref uid = none →
        verify_payment gw now uid ref st
          = ((400, PyJson.obj [("error", PyJson.str "Payment verification failed")]), st)) ∧
    (findTransactionByRef st ref = none →
        payment_success gw now (some ref) st = (PageResult.successPage, st)) ∧
    (∀ (secret email : String) (amt : Int) (u : PyUser),
        findTransactionByRef st ref = none →
        findUserByEmail st email = some u →
        (handle_paystack_webhook secret now
            (successEvent ref email amt (PyJson.obj [("plan_type", PyJson.str "monthly")]))
            (some (sigFor secret (successEvent ref email amt (PyJson.obj [("plan_type", PyJson.str "monthly")])))) st).1
          = activatedResult) := by
  refine ⟨fun rawBody sig => rfl, ?_, ?_, ?_⟩
  · intro hnone
    simp only [verify_payment]
    rw [hok, hds, hnone]
    rfl
  · intro hnone
    simp only [payment_success]
    rw [hok, hds, hnone]
    rfl
  · intro secret email amt u hfresh hu
    rw [handle_valid_sig, dispatch_success, charge_success_eq, hu]
    simp only [addTransaction, updateUser_transactions]
    rw [any_ref_false_of_find_none st ref hfresh]
    rfl

/-- C2 witness: the amended theorem applied at unknown reference RX against
the fresh-user state, for all four paths. -/
theorem claim_C2_witness :
    pyTruthy (dictGetD (verify_transaction (gwOK "RX")) "status" PyJson.null) = true ∧
    jpath2 (verify_transaction (gwOK "RX")) "data" "status" = some (PyJson.str "success") ∧
    api_payment_webhook 0 rawCompact (some "s1") stFreshUser = ((500, webhookFailedResult), stFreshUser) ∧
    findTransactionByRefAndUser stFreshUser "RX" 1 = none ∧
    verify_payment gwOK 0 1 "RX" stFreshUser
      = ((400, PyJson.obj [("error", PyJson.str "Payment verification failed")]), stFreshUser) ∧
    findTransactionByRef stFreshUser "RX" = none ∧
    payment_success gwOK 0 (some "RX") stFreshUser = (PageResult.successPage, stFreshUser) ∧
    findUserByEmail stFreshUser "a@x.com" = some ⟨1, "a@x.com", "free", none⟩ ∧
    (handle_paystack_webhook "sk" 0
        (successEvent "RX" "a@x.com" 17982 (PyJson.obj [("plan_type", PyJson.str "monthly")]))
        (some (sigFor "sk" (successEvent "RX" "a@x.com" 17982 (PyJson.obj [("plan_type", PyJson.str "monthly")])))) stFreshUser).1
      = activatedResult :=
  ⟨rfl, rfl,
   (claim_C2_amended gwOK 0 1 "RX" stFreshUser rfl rfl).1 rawCompact (some "s1"),
   rfl,
   (claim_C2_amended gwOK 0 1 "RX" stFreshUser rfl rfl).2.1 rfl,
   rfl,
   (claim_C2_amended gwOK 0 1 "RX" stFreshUser rfl rfl).2.2.1 rfl,
   rfl,
   (claim_C2_amended gwOK 0 1 "RX" stFreshUser rfl rfl).2.2.2 "sk" "a@x.com" 17982
     ⟨1, "a@x.com", "free", none⟩ rfl rfl⟩

/-- C3 counterexample: the live webhook route performs NO signature
verification at all — the attribute `paystack.verify_webhook` does not exist
(`paystack_verify_webhook = none`), so a delivery whose signature IS the
HMAC-SHA-512 of exactly the bytes received is nevertheless answered 500 and
never accepted, contradicting "accepts only a signature computed over the
exact bytes received" read as a description of an acceptance discipline.
Moreover, at the source's only signature-verification call site (the
shadowed, HTTP-unreachable `payment_webhook` → `handle_paystack_webhook`
chain, embedded as written), verification operates on a compact
RE-SERIALIZATION of the parsed payload: the body `rawSpaced` — the compact
form of `wdPlain` altered by one inserted space — is accepted and processed
under the signature of the compact form, which is NOT the HMAC of the bytes
received. -/
theorem claim_C3_counterexample :
    paystack_verify_webhook = none ∧
    api_payment_webhook 0 rawCompact
        (some (hmacSha512Hex (strBytes "sk") (strBytes rawCompact))) stFreshUser
      = ((500, webhookFailedResult), stFreshUser) ∧
    parseJson rawSpaced = some wdPlain ∧
    strBytes rawSpaced ≠ strBytes (jsonDumpsCompact wdPlain) ∧
    (payment_webhook "sk" 0 rawSpaced (some (sigFor "sk" wdPlain)) stFreshUser).1 = (200, processedResult) ∧
    sigFor "sk" wdPlain ≠ hmacSha512Hex (strBytes "sk") (strBytes rawSpaced) := by
  refine ⟨rfl, rfl, rfl, by decide, ?_, by decide⟩
  have hp : parseJson rawSpaced = some wdPlain := rfl
  simp only [payment_webhook, hp]
  rw [handle_valid_sig]
  rfl

/-- C3 (amended): the program never verifies a webhook signature on a live
path — every delivery to the route, whatever its body and signature, is
answered 500 `{'error': 'Webhook processing failed'}` with no state change,
because the first-registered view faults on the nonexistent `verify_webhook`
attribute before any check.  In the shadowed, HTTP-unreachable verification
chain (`payment_webhook` → `handle_paystack_webhook`), verification hashes
`json.dumps(parsed, separators=(',', ':'))` — a re-serialization of the
parsed payload, not the raw received bytes — so two raw bodies with the same
parse are treated identically: parse-preserving byte alterations stand or
fall together rather than causing rejection. -/
theorem claim_C3_amended (secret : String) (now : Int) (raw1 raw2 : String) (sig : Option String)
    (st : DBState) (wd : PyJson)
    (h1 : parseJson raw1 = some wd) (h2 : parseJson raw2 = some wd) :
    (∀ (rawBody : String) (s : Option String),
        api_payment_webhook now rawBody s st = ((500, webhookFailedResult), st)) ∧
    payment_webhook secret now raw1 sig st = payment_webhook secret now raw2 sig st := by
  refine ⟨fun rawBody s => rfl, ?_⟩
  simp only [payment_webhook, h1, h2]

/-- C3 witness: the spaced and compact bodies are distinct raw bytes with the
same parse; the live route answers 500 to both kinds of delivery, and the
shadowed chain treats them identically. -/
theorem claim_C3_witness :
    parseJson rawSpaced = some wdPlain ∧
    parseJson rawCompact = some wdPlain ∧
    rawSpaced ≠ rawCompact ∧
    api_payment_webhook 0 rawSpaced (some "s0") stFreshUser = ((500, webhookFailedResult), stFreshUser) ∧
    payment_webhook "sk" 0 rawSpaced (some "s0") stFreshUser
      = payment_webhook "sk" 0 rawCompact (some "s0") stFreshUser :=
  ⟨rfl, rfl, by decide,
   (claim_C3_amended "sk" 0 rawSpaced rawCompact (some "s0") stFreshUser wdPlain rfl rfl).1 rawSpaced (some "s0"),
   (claim_C3_amended "sk" 0 rawSpaced rawCompact (some "s0") stFreshUser wdPlain rfl rfl).2⟩

/-- C4 counterexample: Transaction status is NOT monotonic.  A Transaction in
the terminal state `failed` is moved to `completed` by the poll-success path,
and a Transaction in the terminal state `completed` is moved to `failed` by a
`charge.failed` signal. -/
theorem claim_C4_counterexample :
    (findTransactionByRef stFailedTx "R1").map PyTransaction.status = some "failed" ∧
    (payment_success gwOK 0 (some "R1") stFailedTx).2.transactions.map PyTransaction.status = ["completed"] ∧
    (findTransactionByRef stReconciled "R1").map PyTransaction.status = some "completed" ∧
    (webhook_charge_failed (PyJson.obj [("reference", PyJson.str "R1")]) stReconciled).2.transactions.map PyTransaction.status
      = ["failed"] :=
  ⟨rfl, rfl, rfl, rfl⟩

/-- C4 (amended): reconciliation overwrites status unconditionally: a
success signal sets the referenced Transaction's status to `completed`
whatever its current status (including `failed`), and a failure signal sets
it to `failed` whatever its current status (including `completed`); terminal
states are not protected, and reconciling a terminal Transaction repeats the
status and subscription writes rather than being a no-op. -/
theorem claim_C4_amended (gw : String → HttpOutcome) (now : Int) (ref : String)
    (st : DBState) (pay : PyTransaction)
    (hok : pyTruthy (dictGetD (verify_transaction (gw ref)) "status" PyJson.null) = true)
    (hds : jpath2 (verify_transaction (gw ref)) "data" "status" = some (PyJson.str "success"))
    (hfind : findTransactionByRef st ref = some pay) :
    (payment_success gw now (some ref) st).2.transactions
      = st.transactions.map (fun t => if t.paystack_reference == ref then { t with status := "completed" } else t) ∧
    (∀ st2 : DBState,
        (webhook_charge_failed (PyJson.obj [("reference", PyJson.str ref)]) st2).2.transactions
          = match findTransactionByRef st2 ref with
            | some _ => st2.transactions.map (fun t => if t.paystack_reference == ref then { t with status := "failed" } else t)
            | none => st2.transactions) := by
  constructor
  · rw [payment_success_found gw now ref st pay hok hds hfind]
  · intro st2
    rw [charge_failed_eq]
    cases findTransactionByRef st2 ref <;> rfl

/-- C4 witness: the amended theorem applied to the failed Transaction (moved
to completed) and the completed Transaction (moved to failed). -/
theorem claim_C4_witness :
    pyTruthy (dictGetD (verify_transaction (gwOK "R1")) "status" PyJson.null) = true ∧
    jpath2 (verify_transaction (gwOK "R1")) "data" "status" = some (PyJson.str "success") ∧
    findTransactionByRef stFailedTx "R1" = some txR1failed ∧
    (payment_success gwOK 0 (some "R1") stFailedTx).2.transactions
      = stFailedTx.transactions.map (fun t => if t.paystack_reference == "R1" then { t with status := "completed" } else t) ∧
    (webhook_charge_failed (PyJson.obj [("reference", PyJson.str "R1")]) stReconciled).2.transactions
      = match findTransactionByRef stReconciled "R1" with
        | some _ => stReconciled.transactions.map (fun t => if t.paystack_reference == "R1" then { t with status := "failed" } else t)
        | none => stReconciled.transactions :=
  ⟨rfl, rfl, rfl,
   (claim_C4_amended gwOK 0 "R1" stFailedTx txR1failed rfl rfl rfl).1,
   (claim_C4_amended gwOK 0 "R1" stFailedTx txR1failed rfl rfl rfl).2 stReconciled⟩

/-- C5: a successful reconciliation sets the owning user's subscription to
premium with expiry exactly `now + 365 days` for the annual plan and
`now + 30 days` otherwise, on both the poll-verify path (plan from the stored
Transaction) and the webhook path (plan from the payload metadata).  The
formula never reads the previously stored expiry — the theorem holds for
every prior state, so re-running before expiry still yields `now + duration`,
non-cumulatively. -/
theorem claim_C5_expiry_policy (gw : String → HttpOutcome) (now : Int) (uid : Nat) (ref : String)
    (st : DBState) (pay : PyTransaction)
    (hok : pyTruthy (dictGetD (verify_transaction (gw ref)) "status" PyJson.null) = true)
    (hds : jpath2 (verify_transaction (gw ref)) "data" "status" = some (PyJson.str "success"))
    (hfind : findTransactionByRefAndUser st ref uid = some pay) :
    (verify_payment gw now uid ref st).2.users
      = st.users.map (fun u => if u.id == uid then
          { u with subscription_type := "premium",
                   subscription_expires := some (now + (if pay.plan_type == "annual" then 365 else 30) * 86400) }
        else u) ∧
    (∀ (secret ref2 email : String) (amt : Int) (md : PyJson) (st2 : DBState) (u : PyUser),
        findUserByEmail st2 email = some u →
        findTransactionByRef st2 ref2 = none →
        (handle_paystack_webhook secret now (successEvent ref2 email amt md)
            (some (sigFor secret (successEvent ref2 email amt md))) st2).2.users
          = st2.users.map (fun x => if x.id == u.id then
              { x with subscription_type := "premium",
                       subscription_expires := some
                         (if dictGetD md "plan_type" (PyJson.str "monthly") == PyJson.str "annual"
                          then now + 365 * 86400 else now + 30 * 86400) }
            else x)) := by
  constructor
  · rw [verify_payment_found gw now uid ref st pay hok hds hfind]
  · intro secret ref2 email amt md st2 u hu hfresh
    rw [handle_valid_sig, dispatch_success, charge_success_eq, hu]
    simp only [addTransaction, updateUser_transactions]
    rw [any_ref_false_of_find_none st2 ref2 hfresh]
    rfl

/-- C5 witness: the theorem applied at the reconciled state (monthly plan,
second run at time 86400) and at a concrete webhook delivery. -/
theorem claim_C5_witness :
    pyTruthy (dictGetD (verify_transaction (gwOK "R1")) "status" PyJson.null) = true ∧
    jpath2 (verify_transaction (gwOK "R1")) "data" "status" = some (PyJson.str "success") ∧
    findTransactionByRefAndUser stReconciled "R1" 1 = some txR1completed ∧
    (verify_payment gwOK 86400 1 "R1" stReconciled).2.users
      = stReconciled.users.map (fun u => if u.id == 1 then
          { u with subscription_type := "premium",
                   subscription_expires := some (86400 + (if txR1completed.plan_type == "annual" then 365 else 30) * 86400) }
        else u) ∧
    findUserByEmail stFreshUser "a@x.com" = some ⟨1, "a@x.com", "free", none⟩ ∧
    findTransactionByRef stFreshUser "RW" = none ∧
    (handle_paystack_webhook "sk" 86400 (successEvent "RW" "a@x.com" 179982 (PyJson.obj [("plan_type", PyJson.str "annual")]))
        (some (sigFor "sk" (successEvent "RW" "a@x.com" 179982 (PyJson.obj [("plan_type", PyJson.str "annual")])))) stFreshUser).2.users
      = stFreshUser.users.map (fun x => if x.id == (⟨1, "a@x.com", "free", none⟩ : PyUser).id then
          { x with subscription_type := "premium",
                   subscription_expires := some
                     (if dictGetD (PyJson.obj [("plan_type", PyJson.str "annual")]) "plan_type" (PyJson.str "monthly") == PyJson.str "annual"
                      then 86400 + 365 * 86400 else 86400 + 30 * 86400) }
        else x) :=
  ⟨rfl, rfl, rfl,
   (claim_C5_expiry_policy gwOK 86400 1 "R1" stReconciled txR1completed rfl rfl rfl).1,
   rfl, rfl,
   (claim_C5_expiry_policy gwOK 86400 1 "R1" stReconciled txR1completed rfl rfl rfl).2
     "sk" "RW" "a@x.com" 179982 (PyJson.obj [("plan_type", PyJson.str "annual")]) stFreshUser
     ⟨1, "a@x.com", "free", none⟩ rfl rfl⟩

/-! ## Claims C6-C10 -/

/-- C6 counterexample: two DISTINCT clock readings in the same second (they
differ in the microsecond part, as two back-to-back calls would) with the
same email — hence the same process hash value — produce IDENTICAL
references: the generator is a deterministic function of the whole second and
the email hash, so same-second same-email calls collide with certainty, not
with overwhelming improbability. -/
theorem claim_C6_counterexample :
    (⟨100, 0⟩ : PyDatetime) ≠ (⟨100, 999999⟩ : PyDatetime) ∧
    generate_reference ⟨100, 0⟩ 42 = generate_reference ⟨100, 999999⟩ 42 :=
  ⟨by decide, rfl⟩

/-- C6 (amended): the reference is a function of the wall-clock second and
the (salted, but per-process fixed) email hash alone, so any two calls in the
same second with the same email yield the SAME reference; "at most one
Transaction per reference" is enforced only by the ledger's UNIQUE
constraint, which makes the second insertion fail with IntegrityError instead
of reusing the reference. -/
theorem claim_C6_amended (t1 t2 : PyDatetime) (h : Int) (hsec : t1.seconds = t2.seconds) :
    generate_reference t1 h = generate_reference t2 h ∧
    (∀ (st : DBState) (tx : PyTransaction), findTransactionByRef st tx.paystack_reference ≠ none →
        addTransaction st tx
          = Except.error "IntegrityError: UNIQUE constraint failed: payment_transactions.paystack_reference") := by
  constructor
  · unfold generate_reference strftime_YmdHMS
    rw [hsec]
  · intro st tx hne
    unfold addTransaction
    rw [any_ref_true_of_find_ne_none st tx.paystack_reference hne]
    rfl

/-- C6 witness: the amended theorem at the same-second pair and at a
duplicate insertion against the reconciled ledger. -/
theorem claim_C6_witness :
    (⟨100, 0⟩ : PyDatetime).seconds = (⟨100, 999999⟩ : PyDatetime).seconds ∧
    generate_reference ⟨100, 0⟩ 42 = generate_reference ⟨100, 999999⟩ 42 ∧
    findTransactionByRef stReconciled txR1failed.paystack_reference ≠ none ∧
    addTransaction stReconciled txR1failed
      = Except.error "IntegrityError: UNIQUE constraint failed: payment_transactions.paystack_reference" :=
  ⟨rfl,
   (claim_C6_amended ⟨100, 0⟩ ⟨100, 999999⟩ 42 rfl).1,
   by decide,
   (claim_C6_amended ⟨100, 0⟩ ⟨100, 999999⟩ 42 rfl).2 stReconciled txR1failed (by decide)⟩

/-- C7 counterexample: `verify_transaction` on an HTTP 304 response (a
non-2xx code, below `raise_for_status`'s 400 threshold) returns the
provider's body unchanged — not a `GatewayError{status=false, message}`
value — so "on a non-2xx HTTP response they return a GatewayError" is false
as stated. -/
theorem claim_C7_counterexample :
    (304 < 200 ∨ 300 ≤ 304) ∧
    verify_transaction (HttpOutcome.response 304 (some gwOkBody)) = gwOkBody ∧
    isGatewayErrorShape (verify_transaction (HttpOutcome.response 304 (some gwOkBody))) = false :=
  ⟨by decide, rfl, rfl⟩

/-- C7 (amended): neither client operation raises (both are total functions
of the HTTP outcome); `initialize` returns a GatewayError-shaped value on
network failure, undecodable bodies, and on every response that is not HTTP
200 with truthy `status`, and returns the provider body on success; `verify`
returns a GatewayError-shaped value on network failure, undecodable bodies,
and exactly the codes `raise_for_status` raises for — [400, 600) — but
passes the provider body through for every other code: non-2xx codes below
400 such as 304, and out-of-range codes at or above 600 (http.client accepts
statuses up to 999). -/
theorem claim_C7_amended :
    (∀ e, isGatewayErrorShape (verify_transaction (HttpOutcome.netError e)) = true) ∧
    (∀ (code : Nat) (body : Option PyJson), 400 ≤ code → code < 600 →
        isGatewayErrorShape (verify_transaction (HttpOutcome.response code body)) = true) ∧
    (∀ (code : Nat) (j : PyJson), code < 400 →
        verify_transaction (HttpOutcome.response code (some j)) = j) ∧
    (∀ (code : Nat) (j : PyJson), 600 ≤ code →
        verify_transaction (HttpOutcome.response code (some j)) = j) ∧
    (∀ (nowdt : PyDatetime) (eh : Int) (email : String) (amount : ℚ) (plan : String)
        (cb : Option String) (net : PyJson → HttpOutcome) (e : String),
        net (initialize_payload nowdt eh email amount plan cb) = HttpOutcome.netError e →
        isGatewayErrorShape (initialize_transaction nowdt eh email amount plan cb net) = true) ∧
    (∀ (nowdt : PyDatetime) (eh : Int) (email : String) (amount : ℚ) (plan : String)
        (cb : Option String) (net : PyJson → HttpOutcome) (code : Nat) (body : Option PyJson),
        net (initialize_payload nowdt eh email amount plan cb) = HttpOutcome.response code body →
        (code == 200 && (body.map (fun j => pyTruthy (dictGetD j "status" PyJson.null))).getD false) = false →
        isGatewayErrorShape (initialize_transaction nowdt eh email amount plan cb net) = true) ∧
    (∀ (nowdt : PyDatetime) (eh : Int) (email : String) (amount : ℚ) (plan : String)
        (cb : Option String) (net : PyJson → HttpOutcome) (j : PyJson),
        net (initialize_payload nowdt eh email amount plan cb) = HttpOutcome.response 200 (some j) →
        pyTruthy (dictGetD j "status" PyJson.null) = true →
        initialize_transaction nowdt eh email amount plan cb net = j) := by
  refine ⟨fun e => rfl, ?_, ?_, ?_, ?_, ?_, ?_⟩
  · intro code body hcode hlt
    simp only [verify_transaction]
    rw [if_pos ⟨hcode, hlt⟩]
    rfl
  · intro code j hcode
    simp only [verify_transaction]
    rw [if_neg (by omega : ¬(400 ≤ code ∧ code < 600))]
  · intro code j hcode
    simp only [verify_transaction]
    rw [if_neg (by omega : ¬(400 ≤ code ∧ code < 600))]
  · intro nowdt eh email amount plan cb net e hnet
    simp only [initialize_transaction]
    rw [hnet]
    rfl
  · intro nowdt eh email amount plan cb net code body hnet hcond
    simp only [initialize_transaction]
    rw [hnet]
    cases body with
    | none => rfl
    | some j =>
      have hc : (code == 200 && pyTruthy (dictGetD j "status" PyJson.null)) = false := hcond
      show isGatewayErrorShape
        (if (code == 200 && pyTruthy (dictGetD j "status" PyJson.null)) = true then j
         else PyJson.obj [("status", PyJson.bool false),
                          ("message", dictGetD j "message" (PyJson.str "Unknown error")),
                          ("error", PyJson.str (jsonDumpsCompact j))]) = true
      rw [hc]
      rfl
  · intro nowdt eh email amount plan cb net j hnet hst
    simp only [initialize_transaction]
    rw [hnet]
    show (if (200 == 200 && pyTruthy (dictGetD j "status" PyJson.null)) = true then j
          else PyJson.obj [("status", PyJson.bool false),
                           ("message", dictGetD j "message" (PyJson.str "Unknown error")),
                           ("error", PyJson.str (jsonDumpsCompact j))]) = j
    rw [hst]
    rfl

/-- C7 witness: the amended theorem applied at concrete outcomes for both
operations, including a code in [400, 600), a code below 400 and a code at
or above 600. -/
theorem claim_C7_witness :
    isGatewayErrorShape (verify_transaction (HttpOutcome.netError "down")) = true ∧
    isGatewayErrorShape (verify_transaction (HttpOutcome.response 500 none)) = true ∧
    verify_transaction (HttpOutcome.response 200 (some gwOkBody)) = gwOkBody ∧
    verify_transaction (HttpOutcome.response 650 (some gwOkBody)) = gwOkBody ∧
    isGatewayErrorShape (initialize_transaction ⟨0, 0⟩ 0 "a@x.com" (999/100) "monthly" none
      (fun _ => HttpOutcome.netError "down")) = true ∧
    isGatewayErrorShape (initialize_transaction ⟨0, 0⟩ 0 "a@x.com" (999/100) "monthly" none
      (fun _ => HttpOutcome.response 503 none)) = true ∧
    initialize_transaction ⟨0, 0⟩ 0 "a@x.com" (999/100) "monthly" none
      (fun _ => HttpOutcome.response 200 (some (gwInitOk "RW"))) = gwInitOk "RW" :=
  ⟨claim_C7_amended.1 "down",
   claim_C7_amended.2.1 500 none (by decide) (by decide),
   claim_C7_amended.2.2.1 200 gwOkBody (by decide),
   claim_C7_amended.2.2.2.1 650 gwOkBody (by decide),
   claim_C7_amended.2.2.2.2.1 ⟨0, 0⟩ 0 "a@x.com" (999/100) "monthly" none
     (fun _ => HttpOutcome.netError "down") "down" rfl,
   claim_C7_amended.2.2.2.2.2.1 ⟨0, 0⟩ 0 "a@x.com" (999/100) "monthly" none
     (fun _ => HttpOutcome.response 503 none) 503 none rfl (by decide),
   claim_C7_amended.2.2.2.2.2.2 ⟨0, 0⟩ 0 "a@x.com" (999/100) "monthly" none
     (fun _ => HttpOutcome.response 200 (some (gwInitOk "RW"))) (gwInitOk "RW") rfl rfl⟩

/-- C8 counterexample: a webhook delivery whose signature FAILS verification
(here "x", which matches no HMAC of anything) is answered 500 — a
retry-triggering server error, not the claimed 4xx client error — because
the live route faults on the nonexistent `verify_webhook` attribute for
every delivery; no response of this route ever carries a client-error code,
so the provider is never told to stop retrying a signature failure. -/
theorem claim_C8_counterexample :
    verify_webhook_signature "sk" (strBytes rawCompact) "x" = false ∧
    api_payment_webhook 0 rawCompact (some "x") stFreshUser = ((500, webhookFailedResult), stFreshUser) ∧
    ¬(400 ≤ 500 ∧ 500 < 500) :=
  ⟨by decide, rfl, by decide⟩

/-- C8 (amended): every delivery to `POST /api/payment/webhook` — whatever
its body, parseability, or signature — is answered
500 `{'error': 'Webhook processing failed'}` with no state change: the
first-registered view `paystack_webhook` evaluates the nonexistent attribute
`paystack.verify_webhook` and its AttributeError is caught into the 500
branch before any signature check, parse, or write.  So the payload is
indeed never processed, and every failure (signature failures included) gets
the same retry-triggering server error; no client-error response
distinguishing signature failures is ever produced, and no delivery is ever
acknowledged with a 2xx. -/
theorem claim_C8_amended (now : Int) (rawBody : String) (sig : Option String) (st : DBState) :
    api_payment_webhook now rawBody sig st = ((500, webhookFailedResult), st) ∧
    ¬(200 ≤ (api_payment_webhook now rawBody sig st).1.1 ∧
        (api_payment_webhook now rawBody sig st).1.1 < 300) := by
  have h : api_payment_webhook now rawBody sig st = ((500, webhookFailedResult), st) := rfl
  rw [h]
  refine ⟨rfl, ?_⟩
  show ¬(200 ≤ (500 : Nat) ∧ (500 : Nat) < 300)
  decide

/-- C8 witness: the amended theorem at a concrete delivery (bad signature,
well-formed body). -/
theorem claim_C8_witness :
    verify_webhook_signature "sk" (strBytes (jsonDumpsCompact wdPlainY)) "nope" = false ∧
    api_payment_webhook 0 rawCompactY (some "nope") stFreshUser = ((500, webhookFailedResult), stFreshUser) ∧
    ¬(200 ≤ (api_payment_webhook 0 rawCompactY (some "nope") stFreshUser).1.1 ∧
        (api_payment_webhook 0 rawCompactY (some "nope") stFreshUser).1.1 < 300) :=
  ⟨by decide,
   (claim_C8_amended 0 rawCompactY (some "nope") stFreshUser).1,
   (claim_C8_amended 0 rawCompactY (some "nope") stFreshUser).2⟩

/-- C9 counterexample: a `charge.failed` signal for a Transaction whose
status is `completed` (not pending) still sets it to `failed` — the "only if
currently pending" guard does not exist — while the user's subscription
fields are indeed untouched. -/
theorem claim_C9_counterexample :
    (findTransactionByRef stReconciled "R1").map PyTransaction.status = some "completed" ∧
    ((handle_paystack_webhook "sk" 0 (failedEvent "R1") (some (sigFor "sk" (failedEvent "R1"))) stReconciled).2.transactions.map
      PyTransaction.status = ["failed"]) ∧
    (handle_paystack_webhook "sk" 0 (failedEvent "R1") (some (sigFor "sk" (failedEvent "R1"))) stReconciled).2.users
      = stReconciled.users := by
  refine ⟨rfl, ?_, ?_⟩ <;> (rw [handle_valid_sig, dispatch_failed]; rfl)

/-- C9 (amended): a failure signal sets the referenced Transaction's status
to `failed` whenever the Transaction EXISTS, regardless of its current status
(including `completed`); it never touches any user's subscription fields, and
it reports `{"status": "failed"}` either way. -/
theorem claim_C9_amended (secret : String) (now : Int) (ref : String) (st : DBState) :
    (handle_paystack_webhook secret now (failedEvent ref) (some (sigFor secret (failedEvent ref))) st).2.users
      = st.users ∧
    (handle_paystack_webhook secret now (failedEvent ref) (some (sigFor secret (failedEvent ref))) st).1
      = failedResult ∧
    (∀ pay : PyTransaction, findTransactionByRef st ref = some pay →
        (handle_paystack_webhook secret now (failedEvent ref) (some (sigFor secret (failedEvent ref))) st).2.transactions
          = st.transactions.map (fun t => if t.paystack_reference == ref then { t with status := "failed" } else t)) ∧
    (findTransactionByRef st ref = none →
        (handle_paystack_webhook secret now (failedEvent ref) (some (sigFor secret (failedEvent ref))) st).2.transactions
          = st.transactions) := by
  rw [handle_valid_sig, dispatch_failed, charge_failed_eq]
  refine ⟨?_, rfl, ?_, ?_⟩
  · cases findTransactionByRef st ref <;> rfl
  · intro pay hp
    rw [hp]
    rfl
  · intro hn
    rw [hn]
    rfl

/-- C9 witness: the amended theorem at the reconciled state, whose R1
Transaction is completed. -/
theorem claim_C9_witness :
    findTransactionByRef stReconciled "R1" = some txR1completed ∧
    (handle_paystack_webhook "sk" 0 (failedEvent "R1") (some (sigFor "sk" (failedEvent "R1"))) stReconciled).2.users
      = stReconciled.users ∧
    (handle_paystack_webhook "sk" 0 (failedEvent "R1") (some (sigFor "sk" (failedEvent "R1"))) stReconciled).1
      = failedResult ∧
    (handle_paystack_webhook "sk" 0 (failedEvent "R1") (some (sigFor "sk" (failedEvent "R1"))) stReconciled).2.transactions
      = stReconciled.transactions.map (fun t => if t.paystack_reference == "R1" then { t with status := "failed" } else t) :=
  ⟨rfl,
   (claim_C9_amended "sk" 0 "R1" stReconciled).1,
   (claim_C9_amended "sk" 0 "R1" stReconciled).2.1,
   (claim_C9_amended "sk" 0 "R1" stReconciled).2.2.1 txR1completed rfl⟩

/-- C10: plan type is never validated.  For every string p other than
"annual" (including unknown values like "gold", and including the default
"monthly" taken when the key is absent): initialization charges the monthly
price 9.99 and records a pending transaction carrying p verbatim with HTTP
200 (never a rejection); the poll-verify path grants the 30-day expiry for a
stored plan p; and the webhook path, when the metadata has no plan_type,
defaults it to "monthly" and grants the 30-day expiry. -/
theorem claim_C10_no_plan_validation (p : String) (hp : p ≠ "annual") :
    (∀ (nowdt : PyDatetime) (eh : Int) (uid : Nat) (uemail : String) (st : DBState)
        (data : PyJson) (refS : String) (net : PyJson → HttpOutcome),
        dictGetD data "plan_type" (PyJson.str "monthly") = PyJson.str p →
        findTransactionByRef st refS = none →
        net (initialize_payload nowdt eh uemail (999/100) p (jstrOpt (dictGetD data "callback_url" PyJson.null)))
          = HttpOutcome.response 200 (some (gwInitOk refS)) →
        initialize_payment nowdt eh uid uemail net data st
          = ((200, gwInitOk refS),
             { users := st.users, transactions := st.transactions ++ [⟨uid, refS, 999/100, "pending", p⟩] })) ∧
    (∀ (gw : String → HttpOutcome) (now : Int) (uid : Nat) (ref : String) (st : DBState) (pay : PyTransaction),
        pyTruthy (dictGetD (verify_transaction (gw ref)) "status" PyJson.null) = true →
        jpath2 (verify_transaction (gw ref)) "data" "status" = some (PyJson.str "success") →
        findTransactionByRefAndUser st ref uid = some pay →
        pay.plan_type = p →
        (verify_payment gw now uid ref st).2.users
          = st.users.map (fun u => if u.id == uid then
              { u with subscription_type := "premium", subscription_expires := some (now + 30 * 86400) }
            else u)) ∧
    (∀ (secret : String) (now : Int) (ref2 email : String) (amt : Int) (st2 : DBState) (u : PyUser),
        findUserByEmail st2 email = some u →
        findTransactionByRef st2 ref2 = none →
        (handle_paystack_webhook secret now (successEvent ref2 email amt (PyJson.obj []))
            (some (sigFor secret (successEvent ref2 email amt (PyJson.obj [])))) st2)
          = (activatedResult,
             { users := st2.users.map (fun x => if x.id == u.id then
                 { x with subscription_type := "premium", subscription_expires := some (now + 30 * 86400) }
               else x),
               transactions := st2.transactions ++ [⟨u.id, ref2, (amt : ℚ) / 100, "completed", "monthly"⟩] })) := by
  refine ⟨?_, ?_, ?_⟩
  · intro nowdt eh uid uemail st data refS net hplan hfresh hnet
    have hresp : initialize_transaction nowdt eh uemail (999/100) p
        (jstrOpt (dictGetD data "callback_url" PyJson.null)) net = gwInitOk refS := by
      simp only [initialize_transaction]
      rw [hnet]
      rfl
    simp only [initialize_payment]
    rw [hplan, jstrD_str]
    rw [show (p == "annual") = false from beq_eq_false_iff_ne.mpr hp]
    simp only [Bool.false_eq_true, if_false]
    rw [hresp]
    have h1 : pyTruthy (dictGetD (gwInitOk refS) "status" PyJson.null) = true := rfl
    rw [if_pos h1]
    rw [show jpath2 (gwInitOk refS) "data" "reference" = some (PyJson.str refS) from rfl]
    simp only [addTransaction]
    rw [any_ref_false_of_find_none st refS hfresh]
    rfl
  · intro gw now uid ref st pay hok hds hfind hplan
    rw [verify_payment_found gw now uid ref st pay hok hds hfind]
    rw [hplan, show (p == "annual") = false from beq_eq_false_iff_ne.mpr hp]
    simp only [Bool.false_eq_true, if_false]
  · intro secret now ref2 email amt st2 u hu hfresh
    rw [handle_valid_sig, dispatch_success, charge_success_eq, hu]
    simp only [addTransaction, updateUser_transactions]
    rw [any_ref_false_of_find_none st2 ref2 hfresh]
    rfl

/-- C10 witness: the theorem at p = "gold": initialization charges 9.99 and
stores the plan verbatim; the verify path grants 30 days on the stored "gold"
plan; the webhook path defaults a missing metadata plan type to monthly. -/
theorem claim_C10_witness :
    dictGetD (PyJson.obj [("plan_type", PyJson.str "gold")]) "plan_type" (PyJson.str "monthly")
      = PyJson.str "gold" ∧
    findTransactionByRef stFreshUser "RG" = none ∧
    initialize_payment ⟨100, 5⟩ 42 1 "a@x.com"
        (fun _ => HttpOutcome.response 200 (some (gwInitOk "RG")))
        (PyJson.obj [("plan_type", PyJson.str "gold")]) stFreshUser
      = ((200, gwInitOk "RG"),
         { users := stFreshUser.users,
           transactions := stFreshUser.transactions ++ [⟨1, "RG", 999/100, "pending", "gold"⟩] }) ∧
    findTransactionByRefAndUser stGold "RG" 1 = some txGold ∧
    (verify_payment gwOK 0 1 "RG" stGold).2.users
      = stGold.users.map (fun u => if u.id == 1 then
          { u with subscription_type := "premium", subscription_expires := some (0 + 30 * 86400) }
        else u) ∧
    (handle_paystack_webhook "sk" 0 (successEvent "RW" "a@x.com" 17982 (PyJson.obj []))
        (some (sigFor "sk" (successEvent "RW" "a@x.com" 17982 (PyJson.obj [])))) stFreshUser)
      = (activatedResult,
         { users := stFreshUser.users.map (fun x => if x.id == (⟨1, "a@x.com", "free", none⟩ : PyUser).id then
             { x with subscription_type := "premium", subscription_expires := some (0 + 30 * 86400) }
           else x),
           transactions := stFreshUser.transactions ++ [⟨(⟨1, "a@x.com", "free", none⟩ : PyUser).id, "RW", ((17982 : Int) : ℚ) / 100, "completed", "monthly"⟩] }) :=
  ⟨rfl, rfl,
   (claim_C10_no_plan_validation "gold" (by decide)).1 ⟨100, 5⟩ 42 1 "a@x.com" stFreshUser
     (PyJson.obj [("plan_type", PyJson.str "gold")]) "RG"
     (fun _ => HttpOutcome.response 200 (some (gwInitOk "RG"))) rfl rfl rfl,
   rfl,
   (claim_C10_no_plan_validation "gold" (by decide)).2.1 gwOK 0 1 "RG" stGold txGold rfl rfl rfl rfl,
   (claim_C10_no_plan_validation "gold" (by decide)).2.2 "sk" 0 "RW" "a@x.com" 17982 stFreshUser
     ⟨1, "a@x.com", "free", none⟩ rfl rfl⟩
